import Mathlib

/-!
# Verification of the duel escrow and settlement service

Shallow embedding of the sidecar's core: the in-memory store
(`memory-store`), the stealth mapping service (`stealth`), and the duel
escrow engine (`duel-escrow`: create, lock stake, settle, refund,
emergency refund, dust sweep).

Modelling conventions:
* JavaScript `number` arithmetic on token amounts is modelled as exact
  arithmetic (`ℕ`/`ℤ` for integer amounts, `ℚ` with `Int.floor` for the
  fee computations done with `Math.floor` on fractional multipliers).
  All amounts handled by the service are far below `2^53`, where JS
  `number` arithmetic on these expressions is exact.
* `Date.now()` is a `ℕ` millisecond clock passed to each operation; every
  `Date.now()` call inside a single request handler reads the same value.
* The external ZK transfer backend is an oracle: each outbound transfer
  call consumes an explicit `XferResult` outcome supplied as an argument.
* HMAC-SHA256 of the stealth component is an opaque parameter
  `hmac : String → String` (applied to the trimmed wallet, as in the
  source); the source's constant-time string compare computes string
  equality and is modelled as such.
* JS `Map` and `Set` are association lists / lists with map and set
  semantics (`listSet` replaces an existing key in place).
-/

namespace Alerith

-- ============================================================================
-- Data model (types/index.ts)
-- ============================================================================

/-- `DuelStatus` enum from `types/index.ts`. -/
inductive DuelStatus
  | PENDING_STAKES
  | ACTIVE
  | PENDING_SETTLEMENT
  | SETTLED
  | REFUNDED
  | FAILED
  deriving DecidableEq, Repr

/-- `DuelParticipant` from `types/index.ts`. -/
structure DuelParticipant where
  stealthId : String
  characterId : String
  characterName : String
  stakeAmount : ℕ
  stakeLocked : Bool
  lockTxSignature : Option String := none
  lockTimestamp : Option ℕ := none
  deriving DecidableEq, Repr

/-- `DuelRules` from `types/index.ts`. -/
structure DuelRules where
  allowPotions : Bool
  allowPrayer : Bool
  allowMovement : Bool
  noMagic : Bool
  noMelee : Bool
  noRanged : Bool
  deriving DecidableEq, Repr

/-- `DEFAULT_RULES` from `duel-escrow.ts`. -/
def DEFAULT_RULES : DuelRules :=
  { allowPotions := false, allowPrayer := false, allowMovement := true,
    noMagic := false, noMelee := false, noRanged := false }

/-- `DuelSession` from `types/index.ts` (combat summary kept opaque). -/
structure DuelSession where
  duelId : String
  status : DuelStatus
  player1 : DuelParticipant
  player2 : DuelParticipant
  token : String
  houseFeePercent : ℚ
  rules : DuelRules
  createdAt : ℕ
  updatedAt : ℕ
  expiresAt : ℕ
  winnerStealthId : Option String := none
  settlementTxSignatures : List String := []
  combatSummary : Option String := none
  deriving DecidableEq, Repr

-- ============================================================================
-- Configuration (config.ts)
-- ============================================================================

/-- `TOKEN_DECIMALS` table from `config.ts` (`none` for unsupported keys). -/
def TOKEN_DECIMALS (token : String) : Option ℕ :=
  if token = "SOL" then some 9
  else if token = "USD1" then some 6
  else if token = "RADR" then some 9
  else none

/-- `TOKEN_MINIMUMS` table from `config.ts`, in smallest units
(`none` for unsupported keys). -/
def TOKEN_MINIMUMS (token : String) : Option ℕ :=
  if token = "SOL" then some 110000000
  else if token = "USD1" then some 5500000
  else if token = "RADR" then some 11000000000000
  else none

/-- The validated process configuration fields the escrow engine reads
(`config.ts`: `HOUSE_FEE_PERCENT`, `escrowTimeoutMs`). -/
structure Config where
  HOUSE_FEE_PERCENT : ℚ := 2
  escrowTimeoutMs : ℕ := 1800000
  deriving DecidableEq, Repr

-- ============================================================================
-- Association-list helpers (JS Map / Set semantics)
-- ============================================================================

/-- `Map.set`: replace in place if the key exists, else append. -/
def listSet (k : String) (v : α) : List (String × α) → List (String × α)
  | [] => [(k, v)]
  | (k2, v2) :: rest =>
      if k2 = k then (k, v) :: rest else (k2, v2) :: listSet k v rest

/-- `Map.get`. -/
def listGet (k : String) : List (String × α) → Option α
  | [] => none
  | (k2, v2) :: rest => if k2 = k then some v2 else listGet k rest

/-- `Map.delete`. -/
def listDelete (k : String) : List (String × α) → List (String × α)
  | [] => []
  | (k2, v2) :: rest =>
      if k2 = k then listDelete k rest else (k2, v2) :: listDelete k rest

/-- `Set.add`. -/
def setAdd (x : String) (l : List String) : List String :=
  if x ∈ l then l else x :: l

/-- `Set.delete`. -/
def setRemove (x : String) (l : List String) : List String :=
  l.filter (fun y => y ≠ x)

theorem listGet_listSet_self (k : String) (v : α) (l : List (String × α)) :
    listGet k (listSet k v l) = some v := by
  induction l with
  | nil => simp [listSet, listGet]
  | cons kv rest ih =>
      obtain ⟨k2, v2⟩ := kv
      by_cases h : k2 = k
      · simp [listSet, listGet, h]
      · simp [listSet, listGet, h, ih]

theorem listGet_listSet_ne (k k' : String) (v : α) (l : List (String × α))
    (h : k' ≠ k) : listGet k' (listSet k v l) = listGet k' l := by
  induction l with
  | nil => simp [listSet, listGet, Ne.symm h]
  | cons kv rest ih =>
      obtain ⟨k2, v2⟩ := kv
      by_cases h2 : k2 = k
      · subst h2
        simp [listSet, listGet, Ne.symm h, h]
      · simp [listSet, listGet, h2, ih]

theorem listGet_listDelete (k k' : String) (l : List (String × α)) :
    listGet k' (listDelete k l) = if k' = k then none else listGet k' l := by
  induction l with
  | nil => simp [listDelete, listGet]
  | cons kv rest ih =>
      obtain ⟨k2, v2⟩ := kv
      by_cases h2 : k2 = k
      · subst h2
        by_cases h3 : k' = k2
        · subst h3
          simpa [listDelete, listGet] using ih
        · simpa [listDelete, listGet, h3, Ne.symm h3] using ih
      · by_cases h3 : k' = k2
        · subst h3
          simp [listDelete, listGet, h2, Ne.symm h2]
        · simp [listDelete, listGet, h2, h3, Ne.symm h3, ih]

-- ============================================================================
-- In-memory store (memory-store.ts)
-- ============================================================================

/-- `StoredItem<DuelSession>`: record plus absolute store expiry.
(`expiresAt: number | null`; the service always stores a TTL, so the
`null` case is never populated and is not modelled.) -/
structure StoredDuel where
  data : DuelSession
  expiresAt : ℕ
  deriving DecidableEq, Repr

/-- The `MemoryStore` singleton state: duels, per-token dust counters and
the two recovery sets. -/
structure MemoryStore where
  duels : List (String × StoredDuel) := []
  dust : List (String × ℤ) := []
  pendingRecovery : List String := []
  failedRecovery : List String := []
  deriving DecidableEq, Repr

/-- `MemoryStore.setDuel`: upsert with absolute expiry `now + ttlMs`. -/
def MemoryStore.setDuel (s : MemoryStore) (duelId : String)
    (duel : DuelSession) (ttlMs now : ℕ) : MemoryStore :=
  { s with duels := listSet duelId ⟨duel, now + ttlMs⟩ s.duels }

/-- `MemoryStore.getDuel`: returns the record, evicting (and returning
`none`) when `expiresAt <= Date.now()`. Returns the possibly-mutated
store together with the result. -/
def MemoryStore.getDuel (s : MemoryStore) (duelId : String) (now : ℕ) :
    MemoryStore × Option DuelSession :=
  match listGet duelId s.duels with
  | none => (s, none)
  | some item =>
      if item.expiresAt ≤ now then
        ({ s with duels := listDelete duelId s.duels }, none)
      else (s, some item.data)

/-- `MemoryStore.cleanup` (the 60 s reaper body): drop every record with
`expiresAt <= now`. -/
def MemoryStore.cleanup (s : MemoryStore) (now : ℕ) : MemoryStore :=
  { s with duels := s.duels.filter (fun kv => ¬ kv.2.expiresAt ≤ now) }

/-- `MemoryStore.accumulateDust`. -/
def MemoryStore.accumulateDust (s : MemoryStore) (token : String)
    (amount : ℤ) : MemoryStore :=
  { s with dust := listSet token (((listGet token s.dust).getD 0) + amount) s.dust }

/-- `MemoryStore.getDust`. -/
def MemoryStore.getDust (s : MemoryStore) (token : String) : ℤ :=
  (listGet token s.dust).getD 0

/-- `MemoryStore.resetDust`. -/
def MemoryStore.resetDust (s : MemoryStore) (token : String) : MemoryStore :=
  { s with dust := listSet token 0 s.dust }

/-- `MemoryStore.addPendingRecovery`. -/
def MemoryStore.addPendingRecovery (s : MemoryStore) (duelId : String) :
    MemoryStore :=
  { s with pendingRecovery := setAdd duelId s.pendingRecovery }

/-- `MemoryStore.removePendingRecovery`. -/
def MemoryStore.removePendingRecovery (s : MemoryStore) (duelId : String) :
    MemoryStore :=
  { s with pendingRecovery := setRemove duelId s.pendingRecovery }

/-- `MemoryStore.addFailedRecovery`. -/
def MemoryStore.addFailedRecovery (s : MemoryStore) (duelId : String) :
    MemoryStore :=
  { s with failedRecovery := setAdd duelId s.failedRecovery }

/-- `MemoryStore.removeFailedRecovery`. -/
def MemoryStore.removeFailedRecovery (s : MemoryStore) (duelId : String) :
    MemoryStore :=
  { s with failedRecovery := setRemove duelId s.failedRecovery }

-- ============================================================================
-- Stealth identity (stealth.ts)
-- ============================================================================

/-- `generateStealthId`: the opaque `hmac` parameter models the composite
of the whitespace-trim normalisation and HMAC-SHA256 with the process
pepper, applied to the wallet string. -/
def generateStealthId (hmac : String → String) (wallet : String) : String :=
  hmac wallet

/-- `verifyStealthId`: recompute and compare (the source's
`timingSafeEqual` computes string equality). -/
def verifyStealthId (hmac : String → String) (wallet stealthId : String) :
    Bool :=
  generateStealthId hmac wallet = stealthId

/-- The `StealthMappingService` session map: stealth id → wallet. -/
abbrev StealthMap := List (String × String)

/-- `stealthMapping.register`: store `generateStealthId wallet ↦ wallet`,
returning the stealth id. -/
def stealthRegister (hmac : String → String) (wallet : String)
    (m : StealthMap) : String × StealthMap :=
  let stealthId := generateStealthId hmac wallet
  (stealthId, listSet stealthId wallet m)

/-- `stealthMapping.resolve`. -/
def stealthResolve (stealthId : String) (m : StealthMap) : Option String :=
  listGet stealthId m

/-- `stealthMapping.unregister`. -/
def stealthUnregister (stealthId : String) (m : StealthMap) : StealthMap :=
  listDelete stealthId m

-- ============================================================================
-- Service state and transfer oracle
-- ============================================================================

/-- Outcome of one call to the ZK transfer backend
(`shadowWireDirect.transferFromEscrow` / `transferToTreasury`). -/
inductive XferResult
  | ok (txSignature : String)
  | err (message : String)
  deriving DecidableEq, Repr

/-- Outcome of `accountabilityService.commitToSettlement` (opaque to the
escrow engine; publication failure is non-fatal). -/
structure CommitOutcome where
  success : Bool
  commitmentHash : Option String := none
  onChainTxSignature : Option String := none
  deriving DecidableEq, Repr

/-- The escrow service's mutable state: the memory store plus the stealth
reverse map. -/
structure ServiceState where
  store : MemoryStore := {}
  stealthMap : StealthMap := []
  deriving DecidableEq, Repr

-- ============================================================================
-- Create duel (duel-escrow.ts, createDuel)
-- ============================================================================

structure CreateDuelParams where
  player1Wallet : String
  player2Wallet : String
  player1CharacterId : String
  player2CharacterId : String
  player1Name : String
  player2Name : String
  /-- `stakeAmountSol` (human units); the JS float is modelled as an
  exact rational. -/
  stakeAmountSol : ℚ
  token : String := "SOL"
  rules : DuelRules := DEFAULT_RULES

structure CreateDuelResult where
  success : Bool
  duel : Option DuelSession := none
  error : Option String := none
  deriving DecidableEq, Repr

/-- `createDuel`. The random 16-byte `duelId` is an explicit argument;
`now` is the request's `Date.now()` value. -/
def createDuel (hmac : String → String) (cfg : Config) (st : ServiceState)
    (params : CreateDuelParams) (duelId : String) (now : ℕ) :
    ServiceState × CreateDuelResult :=
  let decimals := (TOKEN_DECIMALS params.token).getD 9
  let minAmount := (TOKEN_MINIMUMS params.token).getD 100000000
  -- Math.floor(stakeAmountSol * 10 ** decimals): floor of the exact
  -- rational product, computed by integer floor division
  -- (`floor_stakeToSmallestUnit` below identifies it with the ⌊·⌋ form).
  let stakeAmountSmallestUnit : ℤ :=
    params.stakeAmountSol.num * 10 ^ decimals / (params.stakeAmountSol.den : ℤ)
  if stakeAmountSmallestUnit < (minAmount : ℤ) then
    (st, { success := false, error := some "Stake too low" })
  else
    let r1 := stealthRegister hmac params.player1Wallet st.stealthMap
    let r2 := stealthRegister hmac params.player2Wallet r1.2
    let duel : DuelSession :=
      { duelId := duelId
        status := DuelStatus.PENDING_STAKES
        player1 :=
          { stealthId := r1.1
            characterId := params.player1CharacterId
            characterName := params.player1Name
            stakeAmount := stakeAmountSmallestUnit.toNat
            stakeLocked := false }
        player2 :=
          { stealthId := r2.1
            characterId := params.player2CharacterId
            characterName := params.player2Name
            stakeAmount := stakeAmountSmallestUnit.toNat
            stakeLocked := false }
        token := params.token
        houseFeePercent := cfg.HOUSE_FEE_PERCENT
        rules := params.rules
        createdAt := now
        updatedAt := now
        expiresAt := now + cfg.escrowTimeoutMs }
    ({ store := st.store.setDuel duelId duel cfg.escrowTimeoutMs now
       stealthMap := r2.2 },
     { success := true, duel := some duel })

-- ============================================================================
-- Lock stake (duel-escrow.ts, lockStakeWithProof)
-- ============================================================================

structure LockStakeResult where
  success : Bool
  txSignature : Option String := none
  bothLocked : Option Bool := none
  error : Option String := none
  deriving DecidableEq, Repr

/-- `lockStakeWithProof`. The payment proof is taken as the already-
extracted tx signature (the source also accepts a JSON wrapper and falls
back to the raw string; the wrapper branch is not exercised by any claim
and the raw-string branch is the identity modelled here). -/
def lockStakeWithProof (hmac : String → String) (st : ServiceState)
    (duelId playerWallet paymentProof : String) (now : ℕ) :
    ServiceState × LockStakeResult :=
  let g := st.store.getDuel duelId now
  let st1 : ServiceState := { st with store := g.1 }
  match g.2 with
  | none => (st1, { success := false, error := some "Duel not found" })
  | some duel =>
      if duel.status ≠ DuelStatus.PENDING_STAKES then
        (st1, { success := false, error := some "Invalid duel status" })
      else if duel.expiresAt < now then
        (st1, { success := false, error := some "Duel has expired" })
      else
        let isP1 := verifyStealthId hmac playerWallet duel.player1.stealthId
        let isP2 := verifyStealthId hmac playerWallet duel.player2.stealthId
        if ¬ isP1 ∧ ¬ isP2 then
          (st1, { success := false, error := some "Player not part of this duel" })
        else
          let player := if isP1 then duel.player1 else duel.player2
          if player.stakeLocked then
            (st1, { success := false, error := some "Stake already locked" })
          else
            let txSignature := paymentProof
            let player' : DuelParticipant :=
              { player with stakeLocked := true,
                            lockTxSignature := some txSignature,
                            lockTimestamp := some now }
            let duel' : DuelSession :=
              if isP1 then { duel with player1 := player', updatedAt := now }
              else { duel with player2 := player', updatedAt := now }
            let bothLocked :=
              duel'.player1.stakeLocked && duel'.player2.stakeLocked
            let duel'' : DuelSession :=
              if bothLocked then { duel' with status := DuelStatus.ACTIVE }
              else duel'
            let ttl := max (duel.expiresAt - now) 1000
            ({ st1 with store := st1.store.setDuel duelId duel'' ttl now },
             { success := true, txSignature := some txSignature,
               bothLocked := some bothLocked })

-- ============================================================================
-- Settle duel (duel-escrow.ts, settleDuel)
-- ============================================================================

structure SettleResult where
  success : Bool
  winnerTxSignature : Option String := none
  treasuryTxSignature : Option String := none
  winnerPayoutLamports : Option ℤ := none
  houseFeeLamports : Option ℤ := none
  commitmentHash : Option String := none
  commitmentTxSignature : Option String := none
  error : Option String := none
  deriving DecidableEq, Repr

/-- The winner-payout retry loop (`MAX_RETRIES = 3`): first success among
the attempt outcomes, else the last error (`lastError` starts `""`). -/
def firstOkAux : List XferResult → String → XferResult
  | [], lastError => XferResult.err lastError
  | XferResult.ok tx :: _, _ => XferResult.ok tx
  | XferResult.err m :: rest, _ => firstOkAux rest m

/-- `SETTLEMENT_TTL`: 24 h in milliseconds. -/
def SETTLEMENT_TTL : ℕ := 86400000

/-- `settleDuel`. `commit` is the outcome of
`accountabilityService.commitToSettlement` (non-fatal either way);
`w1 w2 w3` are the outcomes of the (up to) three winner-payout attempts;
`t` is the outcome of the treasury transfer, consumed only when it is
attempted. The treasury wallet is set at `initialize` and is present. -/
def settleDuel (hmac : String → String) (st : ServiceState)
    (duelId winnerWallet : String) (combatSummary : Option String)
    (gameServerSignature : String) (now : ℕ) (commit : CommitOutcome)
    (w1 w2 w3 : XferResult) (t : XferResult) :
    ServiceState × SettleResult :=
  let _ := gameServerSignature
  let g := st.store.getDuel duelId now
  let st1 : ServiceState := { st with store := g.1 }
  match g.2 with
  | none => (st1, { success := false, error := some "Duel not found" })
  | some duel =>
      if duel.status ≠ DuelStatus.ACTIVE ∧
         duel.status ≠ DuelStatus.PENDING_SETTLEMENT then
        (st1, { success := false, error := some "Invalid duel status" })
      else if ¬ verifyStealthId hmac winnerWallet duel.player1.stealthId ∧
              ¬ verifyStealthId hmac winnerWallet duel.player2.stealthId then
        (st1, { success := false, error := some "Winner not part of this duel" })
      else
        -- Payout math: exact model of the JS number computation.
        -- Math.floor(stakePerPlayer * 0.995) and
        -- Math.floor(actualTotalPot * houseFeePercent / 100) are floors of
        -- exact rational products, computed here by integer floor division
        -- (`floor_depositAfterFee` / `floor_houseFee` below identify them
        -- with the ⌊·⌋ forms).
        let stakePerPlayer : ℕ := duel.player1.stakeAmount
        let actualDepositPerPlayer : ℤ := 995 * (stakePerPlayer : ℤ) / 1000
        let actualTotalPot : ℤ := actualDepositPerPlayer * 2
        let houseFee : ℤ :=
          actualTotalPot * duel.houseFeePercent.num /
            (100 * (duel.houseFeePercent.den : ℤ))
        let winnerPayout : ℤ := actualTotalPot - houseFee
        let winnerStealthId := generateStealthId hmac winnerWallet
        let commitmentHash :=
          if commit.success then commit.commitmentHash else none
        let commitmentTxSignature :=
          if commit.success then commit.onChainTxSignature else none
        -- Transition to PENDING_SETTLEMENT with 24 h TTL, add to pending
        let duel1 : DuelSession :=
          { duel with status := DuelStatus.PENDING_SETTLEMENT,
                      winnerStealthId := some winnerStealthId,
                      updatedAt := now }
        let store2 := (st1.store.setDuel duelId duel1 SETTLEMENT_TTL now).addPendingRecovery duelId
        match firstOkAux [w1, w2, w3] "" with
        | XferResult.err lastError =>
            -- All retries failed: revert to ACTIVE, add to failed recovery
            let duel2 : DuelSession :=
              { duel1 with status := DuelStatus.ACTIVE, updatedAt := now }
            let store3 := (store2.setDuel duelId duel2 SETTLEMENT_TTL now).addFailedRecovery duelId
            ({ st1 with store := store3 },
             { success := false,
               error := some ("Failed to pay winner after 3 attempts: " ++ lastError) })
        | XferResult.ok winnerTx =>
            let store3 := store2.removePendingRecovery duelId
            let minTransferForToken : ℕ :=
              (TOKEN_MINIMUMS duel.token).getD 110000000
            let treasuryStep : MemoryStore × Option String :=
              if (minTransferForToken : ℤ) ≤ houseFee then
                match t with
                | XferResult.ok tTx => (store3, some tTx)
                | XferResult.err _ =>
                    (store3.accumulateDust duel.token houseFee, none)
              else if 0 < houseFee then
                (store3.accumulateDust duel.token houseFee, none)
              else (store3, none)
            let store4 := treasuryStep.1
            let treasuryTxSignature := treasuryStep.2
            let duel2 : DuelSession :=
              { duel1 with
                  status := DuelStatus.SETTLED,
                  settlementTxSignatures :=
                    winnerTx :: treasuryTxSignature.toList,
                  combatSummary := combatSummary,
                  updatedAt := now }
            let store5 := store4.setDuel duelId duel2 SETTLEMENT_TTL now
            let map1 := stealthUnregister duel.player1.stealthId st1.stealthMap
            let map2 := stealthUnregister duel.player2.stealthId map1
            ({ store := store5, stealthMap := map2 },
             { success := true,
               winnerTxSignature := some winnerTx,
               treasuryTxSignature := treasuryTxSignature,
               winnerPayoutLamports := some winnerPayout,
               houseFeeLamports := some houseFee,
               commitmentHash := commitmentHash,
               commitmentTxSignature := commitmentTxSignature })

-- ============================================================================
-- Refund duel (duel-escrow.ts, refundDuel)
-- ============================================================================

structure RefundResult where
  success : Bool
  refundTxSignatures : List String := []
  error : Option String := none
  deriving DecidableEq, Repr

/-- One participant's leg of `refundDuel`: if the stake is locked and the
stealth id resolves, a single transfer of the nominal stake is attempted
and its tx signature collected on success. -/
def refundLeg (p : DuelParticipant) (m : StealthMap) (x : XferResult) :
    List String :=
  if p.stakeLocked then
    match stealthResolve p.stealthId m with
    | some _ =>
        match x with
        | XferResult.ok tx => [tx]
        | XferResult.err _ => []
    | none => []
  else []

/-- `refundDuel`. `x1 x2` are the outcomes of the (at most) two refund
transfers; `reason` is logged only. -/
def refundDuel (st : ServiceState) (duelId reason : String) (now : ℕ)
    (x1 x2 : XferResult) : ServiceState × RefundResult :=
  let _ := reason
  let g := st.store.getDuel duelId now
  let st1 : ServiceState := { st with store := g.1 }
  match g.2 with
  | none => (st1, { success := false, error := some "Duel not found" })
  | some duel =>
      if duel.status = DuelStatus.SETTLED ∨
         duel.status = DuelStatus.REFUNDED then
        (st1, { success := false, error := some "Duel already settled or refunded" })
      else
        let refundTxSignatures :=
          refundLeg duel.player1 st1.stealthMap x1 ++
          refundLeg duel.player2 st1.stealthMap x2
        let duel' : DuelSession :=
          { duel with status := DuelStatus.REFUNDED,
                      settlementTxSignatures := refundTxSignatures,
                      updatedAt := now }
        let store2 := st1.store.setDuel duelId duel' SETTLEMENT_TTL now
        let map1 := stealthUnregister duel.player1.stealthId st1.stealthMap
        let map2 := stealthUnregister duel.player2.stealthId map1
        ({ store := store2, stealthMap := map2 },
         { success := true, refundTxSignatures := refundTxSignatures })

-- ============================================================================
-- Emergency refund (duel-escrow.ts, emergencyRefund)
-- ============================================================================

structure EmergencyRefundEntry where
  player : String
  success : Bool
  txSignature : Option String := none
  error : Option String := none
  deriving DecidableEq, Repr

structure EmergencyRefundResult where
  success : Bool
  refunds : List EmergencyRefundEntry := []
  error : Option String := none
  deriving DecidableEq, Repr

/-- One `transferFromEscrow` leg of `emergencyRefund`. -/
def emergencyLeg (name : String) (x : XferResult) : EmergencyRefundEntry :=
  match x with
  | XferResult.ok tx => { player := name, success := true, txSignature := some tx }
  | XferResult.err m => { player := name, success := false, error := some m }

/-- `emergencyRefund`: force-refund both players regardless of duel
status. A leg runs only when its wallet string is truthy (non-empty).
On all-success: clear both recovery sets and mark the duel REFUNDED if
still present. The stealth map is not touched. -/
def emergencyRefund (st : ServiceState)
    (duelId player1Wallet player2Wallet : String)
    (stakePerPlayerLamports : ℕ) (token : String) (now : ℕ)
    (x1 x2 : XferResult) : ServiceState × EmergencyRefundResult :=
  let _ := token
  -- Math.floor(stakePerPlayerLamports * 0.995), as integer floor division
  let actualPerPlayer : ℤ := 995 * (stakePerPlayerLamports : ℤ) / 1000
  let _ := actualPerPlayer
  let refunds :=
    (if player1Wallet ≠ "" then [emergencyLeg "player1" x1] else []) ++
    (if player2Wallet ≠ "" then [emergencyLeg "player2" x2] else [])
  let allSuccess := refunds.all (fun r => r.success)
  if allSuccess then
    let store1 := (st.store.removeFailedRecovery duelId).removePendingRecovery duelId
    let g := store1.getDuel duelId now
    let store2 :=
      match g.2 with
      | none => g.1
      | some duel =>
          g.1.setDuel duelId
            { duel with status := DuelStatus.REFUNDED, updatedAt := now }
            SETTLEMENT_TTL now
    ({ st with store := store2 }, { success := true, refunds := refunds })
  else
    ({ st with store := st.store },
     { success := false, refunds := refunds,
       error := some "Some refunds failed - check individual results" })

-- ============================================================================
-- Dust sweep (duel-escrow.ts, sweepDustToTreasury)
-- ============================================================================

structure SweepResult where
  success : Bool
  amount : Option ℤ := none
  txSignature : Option String := none
  error : Option String := none
  deriving DecidableEq, Repr

/-- `sweepDustToTreasury`. The third component of the result is the list
of treasury transfers actually issued by the call, as `(token, amount)`
pairs (empty = no outbound call made). -/
def sweepDustToTreasury (st : ServiceState) (token : String)
    (x : XferResult) : ServiceState × SweepResult × List (String × ℤ) :=
  let SHADOWWIRE_MIN_TRANSFER : ℤ := 100000000
  let dustAmount := st.store.getDust token
  if dustAmount < SHADOWWIRE_MIN_TRANSFER then
    (st, { success := false, amount := some dustAmount,
           error := some "Accumulated dust is below 0.1 SOL minimum" }, [])
  else
    match x with
    | XferResult.ok tx =>
        ({ st with store := st.store.resetDust token },
         { success := true, amount := some dustAmount,
           txSignature := some tx }, [(token, dustAmount)])
    | XferResult.err m =>
        (st, { success := false, amount := some dustAmount,
               error := some m }, [(token, dustAmount)])

-- ============================================================================
-- Bridge lemmas: integer floor division = ⌊·⌋ of the exact rational form
-- ============================================================================

-- ============================================================================
-- One request = one step (for whole-system invariants)
-- ============================================================================

/-- One inbound operation of the escrow engine, with its oracle inputs. -/
inductive Op
  | create (params : CreateDuelParams) (duelId : String) (now : ℕ)
  | lock (duelId playerWallet paymentProof : String) (now : ℕ)
  | settle (duelId winnerWallet : String) (combatSummary : Option String)
      (gameServerSignature : String) (now : ℕ) (commit : CommitOutcome)
      (w1 w2 w3 t : XferResult)
  | refund (duelId reason : String) (now : ℕ) (x1 x2 : XferResult)
  | emergency (duelId player1Wallet player2Wallet : String)
      (stakePerPlayerLamports : ℕ) (token : String) (now : ℕ)
      (x1 x2 : XferResult)
  | sweep (token : String) (x : XferResult)
  | cleanup (now : ℕ)

/-- The state transition of one operation (result values discarded). -/
def step (hmac : String → String) (cfg : Config) (st : ServiceState) :
    Op → ServiceState
  | Op.create params duelId now => (createDuel hmac cfg st params duelId now).1
  | Op.lock duelId playerWallet paymentProof now =>
      (lockStakeWithProof hmac st duelId playerWallet paymentProof now).1
  | Op.settle duelId winnerWallet combatSummary gameServerSignature now
      commit w1 w2 w3 t =>
      (settleDuel hmac st duelId winnerWallet combatSummary
        gameServerSignature now commit w1 w2 w3 t).1
  | Op.refund duelId reason now x1 x2 =>
      (refundDuel st duelId reason now x1 x2).1
  | Op.emergency duelId p1 p2 stake token now x1 x2 =>
      (emergencyRefund st duelId p1 p2 stake token now x1 x2).1
  | Op.sweep token x => (sweepDustToTreasury st token x).1
  | Op.cleanup now => { st with store := st.store.cleanup now }

-- ============================================================================
-- Small facts about the helpers
-- ============================================================================

theorem mem_listSet {k : String} {v : α} {l : List (String × α)} {kv} :
    kv ∈ listSet k v l → kv = (k, v) ∨ kv ∈ l := by
  induction l with
  | nil =>
      intro h
      simp only [listSet, List.mem_singleton] at h
      exact Or.inl h
  | cons kv2 rest ih =>
      obtain ⟨k2, v2⟩ := kv2
      intro h
      by_cases h2 : k2 = k
      · subst h2
        simp only [listSet, if_true, eq_self_iff_true, List.mem_cons] at h
        rcases h with h3 | h3
        · exact Or.inl h3
        · exact Or.inr (List.mem_cons_of_mem _ h3)
      · simp only [listSet, if_neg h2, List.mem_cons] at h
        rcases h with h3 | h3
        · exact Or.inr (by simp [h3])
        · rcases ih h3 with h4 | h4
          · exact Or.inl h4
          · exact Or.inr (List.mem_cons_of_mem _ h4)

theorem mem_listDelete {k : String} {l : List (String × α)} {kv} :
    kv ∈ listDelete k l → kv ∈ l := by
  induction l with
  | nil => intro h; simp [listDelete] at h
  | cons kv2 rest ih =>
      obtain ⟨k2, v2⟩ := kv2
      by_cases h2 : k2 = k
      · intro h
        simp only [listDelete, if_pos h2] at h
        exact List.mem_cons_of_mem _ (ih h)
      · intro h
        simp only [listDelete, if_neg h2, List.mem_cons] at h
        rcases h with h | h
        · simp [h]
        · exact List.mem_cons_of_mem _ (ih h)

theorem mem_setAdd_self (x : String) (l : List String) : x ∈ setAdd x l := by
  by_cases h : x ∈ l <;> simp [setAdd, h]

theorem not_mem_setRemove_self (x : String) (l : List String) :
    x ∉ setRemove x l := by
  simp [setRemove]

/-- `getDuel` touches only the duels table. -/
theorem getDuel_fst_proj (s : MemoryStore) (duelId : String) (now : ℕ) :
    (s.getDuel duelId now).1.dust = s.dust ∧
    (s.getDuel duelId now).1.pendingRecovery = s.pendingRecovery ∧
    (s.getDuel duelId now).1.failedRecovery = s.failedRecovery := by
  unfold MemoryStore.getDuel
  rcases listGet duelId s.duels with _ | item
  · simp
  · by_cases h : item.expiresAt ≤ now <;> simp [h]

/-- When `getDuel` returns a record, the store is untouched and the record
is the stored one. -/
theorem getDuel_some (s : MemoryStore) (duelId : String) (now : ℕ)
    (duel : DuelSession) (h : (s.getDuel duelId now).2 = some duel) :
    (s.getDuel duelId now).1 = s ∧
    ∃ sd, listGet duelId s.duels = some sd ∧ sd.data = duel ∧ now < sd.expiresAt := by
  unfold MemoryStore.getDuel at h ⊢
  rcases hg : listGet duelId s.duels with _ | item
  · rw [hg] at h
    simp at h
  · rw [hg] at h
    by_cases hexp : item.expiresAt ≤ now
    · simp [hexp] at h
    · simp only [hexp, if_false, Bool.false_eq_true] at h ⊢
      simp at h ⊢
      exact ⟨h, by omega⟩

-- ============================================================================
-- Invariant: a duel with both stakes locked has left PENDING_STAKES
-- ============================================================================

/-- The statuses a both-stakes-locked duel can carry. -/
def bothLockedStatusOK (d : DuelSession) : Prop :=
  d.player1.stakeLocked = true → d.player2.stakeLocked = true →
    d.status = DuelStatus.ACTIVE ∨ d.status = DuelStatus.PENDING_SETTLEMENT ∨
    d.status = DuelStatus.SETTLED ∨ d.status = DuelStatus.REFUNDED

instance (d : DuelSession) : Decidable (bothLockedStatusOK d) := by
  unfold bothLockedStatusOK
  infer_instance

/-- Every duel record in the store satisfies `bothLockedStatusOK`. -/
def BothLockedInv (st : ServiceState) : Prop :=
  ∀ kv ∈ st.store.duels, bothLockedStatusOK kv.2.data

instance (st : ServiceState) : Decidable (BothLockedInv st) := by
  unfold BothLockedInv
  infer_instance

/-- Membership in the duels table after a `setDuel`. -/
theorem mem_setDuel {s : MemoryStore} {id : String} {duel : DuelSession}
    {ttl now : ℕ} {kv} (h : kv ∈ (s.setDuel id duel ttl now).duels) :
    kv.2.data = duel ∨ kv ∈ s.duels := by
  rcases mem_listSet h with h1 | h1
  · left
    rw [h1]
  · right
    exact h1

/-- The duels table after a `getDuel` is the old one or the old one with
the requested key deleted. -/
theorem getDuel_fst_duels (s : MemoryStore) (id : String) (now : ℕ) :
    (s.getDuel id now).1.duels = s.duels ∨
    (s.getDuel id now).1.duels = listDelete id s.duels := by
  unfold MemoryStore.getDuel
  rcases listGet id s.duels with _ | item
  · exact Or.inl rfl
  · by_cases hexp : item.expiresAt ≤ now
    · simp [hexp]
    · simp [hexp]

/-- Membership in the duels table after a `getDuel`. -/
theorem mem_getDuel_fst {s : MemoryStore} {id : String} {now : ℕ} {kv}
    (h : kv ∈ (s.getDuel id now).1.duels) : kv ∈ s.duels := by
  rcases getDuel_fst_duels s id now with he | he
  · rw [he] at h
    exact h
  · rw [he] at h
    exact mem_listDelete h

theorem createDuel_preserves_inv (hmac : String → String) (cfg : Config)
    (st : ServiceState) (params : CreateDuelParams) (duelId : String)
    (now : ℕ) (h : BothLockedInv st) :
    BothLockedInv (createDuel hmac cfg st params duelId now).1 := by
  unfold BothLockedInv at h ⊢
  simp only [createDuel]
  repeat' split
  all_goals intro kv hkv
  all_goals first
    | dsimp only [MemoryStore.setDuel, MemoryStore.accumulateDust,
        MemoryStore.addPendingRecovery, MemoryStore.removePendingRecovery,
        MemoryStore.addFailedRecovery, MemoryStore.removeFailedRecovery,
        MemoryStore.resetDust] at hkv
    | skip
  all_goals first
    | exact h kv hkv
    | (have hm := mem_getDuel_fst hkv
       exact h kv hm)
    | (rcases mem_listSet hkv with h1 | h1
       · subst h1
         unfold bothLockedStatusOK
         intro hp1 hp2
         simp_all
       · first
         | exact h kv h1
         | (have hm := mem_getDuel_fst h1
            exact h kv hm)
         | (rcases mem_listSet h1 with h2 | h2
            · subst h2
              unfold bothLockedStatusOK
              intro hp1 hp2
              simp_all
            · first
              | exact h kv h2
              | (have hm := mem_getDuel_fst h2
                 exact h kv hm)))

theorem lockStake_preserves_inv (hmac : String → String) (st : ServiceState)
    (duelId playerWallet paymentProof : String) (now : ℕ)
    (h : BothLockedInv st) :
    BothLockedInv (lockStakeWithProof hmac st duelId playerWallet
      paymentProof now).1 := by
  unfold BothLockedInv at h ⊢
  simp only [lockStakeWithProof]
  repeat' split
  all_goals intro kv hkv
  all_goals first
    | dsimp only [MemoryStore.setDuel, MemoryStore.accumulateDust,
        MemoryStore.addPendingRecovery, MemoryStore.removePendingRecovery,
        MemoryStore.addFailedRecovery, MemoryStore.removeFailedRecovery,
        MemoryStore.resetDust] at hkv
    | skip
  all_goals first
    | exact h kv hkv
    | (have hm := mem_getDuel_fst hkv
       exact h kv hm)
    | (rcases mem_listSet hkv with h1 | h1
       · subst h1
         unfold bothLockedStatusOK
         intro hp1 hp2
         simp_all
       · first
         | exact h kv h1
         | (have hm := mem_getDuel_fst h1
            exact h kv hm)
         | (rcases mem_listSet h1 with h2 | h2
            · subst h2
              unfold bothLockedStatusOK
              intro hp1 hp2
              simp_all
            · first
              | exact h kv h2
              | (have hm := mem_getDuel_fst h2
                 exact h kv hm)))

theorem refundDuel_preserves_inv (st : ServiceState) (duelId reason : String)
    (now : ℕ) (x1 x2 : XferResult) (h : BothLockedInv st) :
    BothLockedInv (refundDuel st duelId reason now x1 x2).1 := by
  unfold BothLockedInv at h ⊢
  simp only [refundDuel]
  repeat' split
  all_goals intro kv hkv
  all_goals first
    | dsimp only [MemoryStore.setDuel, MemoryStore.accumulateDust,
        MemoryStore.addPendingRecovery, MemoryStore.removePendingRecovery,
        MemoryStore.addFailedRecovery, MemoryStore.removeFailedRecovery,
        MemoryStore.resetDust] at hkv
    | skip
  all_goals first
    | exact h kv hkv
    | (have hm := mem_getDuel_fst hkv
       exact h kv hm)
    | (rcases mem_listSet hkv with h1 | h1
       · subst h1
         unfold bothLockedStatusOK
         intro hp1 hp2
         simp_all
       · first
         | exact h kv h1
         | (have hm := mem_getDuel_fst h1
            exact h kv hm)
         | (rcases mem_listSet h1 with h2 | h2
            · subst h2
              unfold bothLockedStatusOK
              intro hp1 hp2
              simp_all
            · first
              | exact h kv h2
              | (have hm := mem_getDuel_fst h2
                 exact h kv hm)))

theorem settleDuel_preserves_inv (hmac : String → String) (st : ServiceState)
    (duelId winnerWallet : String) (combatSummary : Option String)
    (gameServerSignature : String) (now : ℕ) (commit : CommitOutcome)
    (w1 w2 w3 t : XferResult) (h : BothLockedInv st) :
    BothLockedInv (settleDuel hmac st duelId winnerWallet combatSummary
      gameServerSignature now commit w1 w2 w3 t).1 := by
  unfold BothLockedInv at h ⊢
  simp only [settleDuel]
  repeat' split
  all_goals intro kv hkv
  all_goals first
    | dsimp only [MemoryStore.setDuel, MemoryStore.accumulateDust,
        MemoryStore.addPendingRecovery, MemoryStore.removePendingRecovery,
        MemoryStore.addFailedRecovery, MemoryStore.removeFailedRecovery,
        MemoryStore.resetDust] at hkv
    | skip
  all_goals first
    | exact h kv hkv
    | (have hm := mem_getDuel_fst hkv
       exact h kv hm)
    | (rcases mem_listSet hkv with h1 | h1
       · subst h1
         unfold bothLockedStatusOK
         intro hp1 hp2
         simp_all
       · first
         | exact h kv h1
         | (have hm := mem_getDuel_fst h1
            exact h kv hm)
         | (rcases mem_listSet h1 with h2 | h2
            · subst h2
              unfold bothLockedStatusOK
              intro hp1 hp2
              simp_all
            · first
              | exact h kv h2
              | (have hm := mem_getDuel_fst h2
                 exact h kv hm)))

theorem emergencyRefund_preserves_inv (st : ServiceState)
    (duelId player1Wallet player2Wallet : String)
    (stakePerPlayerLamports : ℕ) (token : String) (now : ℕ)
    (x1 x2 : XferResult) (h : BothLockedInv st) :
    BothLockedInv (emergencyRefund st duelId player1Wallet player2Wallet
      stakePerPlayerLamports token now x1 x2).1 := by
  unfold BothLockedInv at h ⊢
  simp only [emergencyRefund]
  repeat' split
  all_goals intro kv hkv
  all_goals first
    | dsimp only [MemoryStore.setDuel, MemoryStore.accumulateDust,
        MemoryStore.addPendingRecovery, MemoryStore.removePendingRecovery,
        MemoryStore.addFailedRecovery, MemoryStore.removeFailedRecovery,
        MemoryStore.resetDust] at hkv
    | skip
  all_goals first
    | exact h kv hkv
    | (have hm := mem_getDuel_fst hkv
       exact h kv hm)
    | (rcases mem_listSet hkv with h1 | h1
       · subst h1
         unfold bothLockedStatusOK
         intro hp1 hp2
         simp_all
       · first
         | exact h kv h1
         | (have hm := mem_getDuel_fst h1
            exact h kv hm)
         | (rcases mem_listSet h1 with h2 | h2
            · subst h2
              unfold bothLockedStatusOK
              intro hp1 hp2
              simp_all
            · first
              | exact h kv h2
              | (have hm := mem_getDuel_fst h2
                 exact h kv hm)))

theorem sweep_preserves_inv (st : ServiceState) (token : String)
    (x : XferResult) (h : BothLockedInv st) :
    BothLockedInv (sweepDustToTreasury st token x).1 := by
  unfold BothLockedInv at h ⊢
  simp only [sweepDustToTreasury]
  repeat' split
  all_goals intro kv hkv
  all_goals first
    | dsimp only [MemoryStore.setDuel, MemoryStore.accumulateDust,
        MemoryStore.addPendingRecovery, MemoryStore.removePendingRecovery,
        MemoryStore.addFailedRecovery, MemoryStore.removeFailedRecovery,
        MemoryStore.resetDust] at hkv
    | skip
  all_goals first
    | exact h kv hkv
    | (have hm := mem_getDuel_fst hkv
       exact h kv hm)
    | (rcases mem_listSet hkv with h1 | h1
       · subst h1
         unfold bothLockedStatusOK
         intro hp1 hp2
         simp_all
       · first
         | exact h kv h1
         | (have hm := mem_getDuel_fst h1
            exact h kv hm)
         | (rcases mem_listSet h1 with h2 | h2
            · subst h2
              unfold bothLockedStatusOK
              intro hp1 hp2
              simp_all
            · first
              | exact h kv h2
              | (have hm := mem_getDuel_fst h2
                 exact h kv hm)))

theorem cleanup_preserves_inv (st : ServiceState) (now : ℕ)
    (h : BothLockedInv st) :
    BothLockedInv { st with store := st.store.cleanup now } := by
  unfold BothLockedInv at h ⊢
  intro kv hkv
  dsimp [MemoryStore.cleanup] at hkv
  exact h kv (List.mem_of_mem_filter hkv)

theorem floor_depositAfterFee (S : ℕ) :
    995 * (S : ℤ) / 1000 = ⌊(S : ℚ) * (1 - 0.5 / 100)⌋ := by
  have h : (S : ℚ) * (1 - 0.5 / 100) =
      ((995 * (S : ℤ) : ℤ) : ℚ) / ((1000 : ℕ) : ℚ) := by
    push_cast
    ring
  rw [h, Rat.floor_intCast_div_natCast]
  norm_num

theorem floor_houseFee (pot : ℤ) (fh : ℚ) :
    pot * fh.num / (100 * (fh.den : ℤ)) = ⌊(pot : ℚ) * fh / 100⌋ := by
  have key : ∀ (n : ℤ) (d : ℕ), d ≠ 0 →
      (pot : ℚ) * ((n : ℚ) / (d : ℚ)) / 100 =
        ((pot * n : ℤ) : ℚ) / ((100 * d : ℕ) : ℚ) := by
    intro n d hd
    have hd' : ((d : ℚ)) ≠ 0 := by exact_mod_cast hd
    push_cast
    field_simp
    exact Or.inl (by ring)
  have h := key fh.num fh.den fh.den_nz
  rw [Rat.num_div_den fh] at h
  rw [h, Rat.floor_intCast_div_natCast]
  push_cast
  ring_nf

theorem floor_stakeToSmallestUnit (q : ℚ) (d : ℕ) :
    q.num * 10 ^ d / (q.den : ℤ) = ⌊q * (10 : ℚ) ^ d⌋ := by
  have key : ∀ (n : ℤ) (dn : ℕ), dn ≠ 0 →
      ((n : ℚ) / (dn : ℚ)) * (10 : ℚ) ^ d =
        ((n * 10 ^ d : ℤ) : ℚ) / ((dn : ℕ) : ℚ) := by
    intro n dn hd
    have hd' : ((dn : ℚ)) ≠ 0 := by exact_mod_cast hd
    push_cast
    field_simp
  have h := key q.num q.den q.den_nz
  rw [Rat.num_div_den q] at h
  rw [h, Rat.floor_intCast_div_natCast]

-- ============================================================================
-- Concrete fixtures for witnesses and counterexamples
-- ============================================================================

/-- A concrete stand-in for the opaque normalise-and-HMAC function. -/
def demoHmac : String → String := fun w => w

/-- Default process configuration (house fee 2 %, 30 min escrow). -/
def demoCfg : Config := {}

def demoP1 : DuelParticipant :=
  { stealthId := "w1", characterId := "c1", characterName := "Alice",
    stakeAmount := 100000000, stakeLocked := true,
    lockTxSignature := some "tx_p1", lockTimestamp := some 10 }

def demoP2 : DuelParticipant :=
  { stealthId := "w2", characterId := "c2", characterName := "Bob",
    stakeAmount := 100000000, stakeLocked := true,
    lockTxSignature := some "tx_p2", lockTimestamp := some 20 }

/-- An ACTIVE duel with both stakes locked (0.1 SOL each, 2 % house fee). -/
def activeDuel : DuelSession :=
  { duelId := "d1", status := DuelStatus.ACTIVE,
    player1 := demoP1, player2 := demoP2,
    token := "SOL", houseFeePercent := 2, rules := DEFAULT_RULES,
    createdAt := 0, updatedAt := 20, expiresAt := 1800000 }

/-- Service state holding `activeDuel` with both stealth ids registered. -/
def demoState : ServiceState :=
  { store := { duels := [("d1", ⟨activeDuel, 1800000⟩)] },
    stealthMap := [("w1", "w1"), ("w2", "w2")] }

def demoCommit : CommitOutcome :=
  { success := true, commitmentHash := some "h", onChainTxSignature := some "ctx" }

-- ============================================================================
-- C1 — settle payout arithmetic
-- ============================================================================

/-- C1: whenever a settle call reaches the payout computation (the duel is
found, its status admits settlement, the winner verifies, and the retry
loop succeeds), the returned amounts satisfy
`A = ⌊S·(1 − 0.5/100)⌋`, `P = 2·A`, `H = ⌊P·f_h/100⌋`,
`winnerPayoutLamports = P − H` and `houseFeeLamports = H`, where `S` is
the per-player stake and `f_h` the duel's house-fee percent. -/
theorem c1_settle_payout_math (hmac : String → String) (st : ServiceState)
    (duelId winnerWallet : String) (combatSummary : Option String)
    (gameServerSignature : String) (now : ℕ) (commit : CommitOutcome)
    (w1 w2 w3 t : XferResult) (duel : DuelSession) (tx : String)
    (hg : (st.store.getDuel duelId now).2 = some duel)
    (hs : duel.status = DuelStatus.ACTIVE ∨
          duel.status = DuelStatus.PENDING_SETTLEMENT)
    (hw : verifyStealthId hmac winnerWallet duel.player1.stealthId = true ∨
          verifyStealthId hmac winnerWallet duel.player2.stealthId = true)
    (hok : firstOkAux [w1, w2, w3] "" = XferResult.ok tx) :
    (settleDuel hmac st duelId winnerWallet combatSummary
        gameServerSignature now commit w1 w2 w3 t).2.houseFeeLamports =
      some ⌊((2 * ⌊(duel.player1.stakeAmount : ℚ) * (1 - 0.5 / 100)⌋ : ℤ) : ℚ) *
              duel.houseFeePercent / 100⌋ ∧
    (settleDuel hmac st duelId winnerWallet combatSummary
        gameServerSignature now commit w1 w2 w3 t).2.winnerPayoutLamports =
      some (2 * ⌊(duel.player1.stakeAmount : ℚ) * (1 - 0.5 / 100)⌋ -
        ⌊((2 * ⌊(duel.player1.stakeAmount : ℚ) * (1 - 0.5 / 100)⌋ : ℤ) : ℚ) *
            duel.houseFeePercent / 100⌋) := by
  have hc1 : ¬(duel.status ≠ DuelStatus.ACTIVE ∧
      duel.status ≠ DuelStatus.PENDING_SETTLEMENT) := by
    rcases hs with h | h <;> simp [h]
  have hc2 : ¬(¬verifyStealthId hmac winnerWallet duel.player1.stealthId = true ∧
      ¬verifyStealthId hmac winnerWallet duel.player2.stealthId = true) := by
    rcases hw with h | h <;> simp [h]
  have hA : 995 * (duel.player1.stakeAmount : ℤ) / 1000 * 2 =
      2 * (995 * (duel.player1.stakeAmount : ℤ) / 1000) := by ring
  simp only [settleDuel, hg, if_neg hc1, if_neg hc2, hok]
  rw [← floor_depositAfterFee, ← floor_houseFee]
  constructor
  · dsimp
    rw [hA]
  · dsimp
    rw [hA]

/-- Concrete run for the C1 witness: settling `activeDuel` for player 1,
all transfers succeeding. -/
def c1Run : ServiceState × SettleResult :=
  settleDuel demoHmac demoState "d1" "w1" none "sig" 100 demoCommit
    (XferResult.ok "wtx") (XferResult.ok "x2") (XferResult.ok "x3")
    (XferResult.ok "ttx")

theorem c1_settle_payout_math_witness :
    ((demoState.store.getDuel "d1" 100).2 = some activeDuel ∧
     (activeDuel.status = DuelStatus.ACTIVE ∨
      activeDuel.status = DuelStatus.PENDING_SETTLEMENT) ∧
     (verifyStealthId demoHmac "w1" activeDuel.player1.stealthId = true ∨
      verifyStealthId demoHmac "w1" activeDuel.player2.stealthId = true) ∧
     firstOkAux [XferResult.ok "wtx", XferResult.ok "x2", XferResult.ok "x3"]
        "" = XferResult.ok "wtx") ∧
    (c1Run.2.houseFeeLamports =
      some ⌊((2 * ⌊(activeDuel.player1.stakeAmount : ℚ) * (1 - 0.5 / 100)⌋ : ℤ) : ℚ) *
              activeDuel.houseFeePercent / 100⌋ ∧
     c1Run.2.winnerPayoutLamports =
      some (2 * ⌊(activeDuel.player1.stakeAmount : ℚ) * (1 - 0.5 / 100)⌋ -
        ⌊((2 * ⌊(activeDuel.player1.stakeAmount : ℚ) * (1 - 0.5 / 100)⌋ : ℤ) : ℚ) *
            activeDuel.houseFeePercent / 100⌋)) ∧
    (c1Run.2.winnerPayoutLamports = some 195020000 ∧
     c1Run.2.houseFeeLamports = some 3980000) :=
  ⟨⟨by decide, Or.inl (by decide), Or.inl (by decide), by decide⟩,
   c1_settle_payout_math demoHmac demoState "d1" "w1" none "sig" 100
     demoCommit (XferResult.ok "wtx") (XferResult.ok "x2")
     (XferResult.ok "x3") (XferResult.ok "ttx") activeDuel "wtx"
     (by decide) (Or.inl (by decide)) (Or.inl (by decide)) (by decide),
   by decide, by decide⟩

-- ============================================================================
-- C8 — both stakes locked constrains the status
-- ============================================================================

/-- C8 counterexample: refunding the ACTIVE duel leaves both
`stake_locked` flags true while the status becomes REFUNDED, which is in
none of {ACTIVE, PENDING_SETTLEMENT, SETTLED}. -/
theorem c8_counterexample :
    (((refundDuel demoState "d1" "timeout" 100 (XferResult.ok "r1")
        (XferResult.ok "r2")).1.store.getDuel "d1" 100).2.map
      (fun d => (d.player1.stakeLocked, d.player2.stakeLocked, d.status)) =
      some (true, true, DuelStatus.REFUNDED)) ∧
    DuelStatus.REFUNDED ≠ DuelStatus.ACTIVE ∧
    DuelStatus.REFUNDED ≠ DuelStatus.PENDING_SETTLEMENT ∧
    DuelStatus.REFUNDED ≠ DuelStatus.SETTLED := by
  decide

/-- C8 (amended): at every externally observable moment, a stored duel
with both participants' stakes locked has status in
{ACTIVE, PENDING_SETTLEMENT, SETTLED, REFUNDED} — REFUNDED added because
refund and emergency refund leave the locked flags set. Every operation
preserves this invariant. -/
theorem c8_bothLocked_status (hmac : String → String) (cfg : Config)
    (st : ServiceState) (op : Op) (h : BothLockedInv st) :
    BothLockedInv (step hmac cfg st op) := by
  cases op with
  | create params duelId now => exact createDuel_preserves_inv _ _ _ _ _ _ h
  | lock duelId playerWallet paymentProof now =>
      exact lockStake_preserves_inv _ _ _ _ _ _ h
  | settle duelId winnerWallet combatSummary gameServerSignature now
      commit w1 w2 w3 t =>
      exact settleDuel_preserves_inv _ _ _ _ _ _ _ _ _ _ _ _ h
  | refund duelId reason now x1 x2 =>
      exact refundDuel_preserves_inv _ _ _ _ _ _ h
  | emergency duelId p1 p2 stake token now x1 x2 =>
      exact emergencyRefund_preserves_inv _ _ _ _ _ _ _ _ _ h
  | sweep token x => exact sweep_preserves_inv _ _ _ h
  | cleanup now => exact cleanup_preserves_inv _ _ h

theorem c8_bothLocked_status_witness :
    BothLockedInv demoState ∧
    BothLockedInv (step demoHmac demoCfg demoState
      (Op.refund "d1" "timeout" 100 (XferResult.ok "r1") (XferResult.ok "r2"))) :=
  ⟨by decide,
   c8_bothLocked_status demoHmac demoCfg demoState
     (Op.refund "d1" "timeout" 100 (XferResult.ok "r1") (XferResult.ok "r2"))
     (by decide)⟩

-- ============================================================================
-- C2 — settle retry exhaustion
-- ============================================================================

/-- When the key is present, `getDuel` either evicts (at or past expiry)
or returns the stored record unchanged. -/
theorem getDuel_of_listGet (s : MemoryStore) (id : String) (now : ℕ)
    (sd : StoredDuel) (hsd : listGet id s.duels = some sd) :
    s.getDuel id now =
      if sd.expiresAt ≤ now then
        ({ s with duels := listDelete id s.duels }, none)
      else (s, some sd.data) := by
  unfold MemoryStore.getDuel
  rw [hsd]

/-- The status of the stored record for a duel id, if any. -/
def storedStatus (st : ServiceState) (duelId : String) : Option DuelStatus :=
  (listGet duelId st.store.duels).map (fun sd => sd.data.status)

/-- Concrete run for C2: settling `activeDuel` with all three
winner-payout attempts failing. -/
def c2Run : ServiceState × SettleResult :=
  settleDuel demoHmac demoState "d1" "w1" none "sig" 100 demoCommit
    (XferResult.err "e1") (XferResult.err "e2") (XferResult.err "e3")
    (XferResult.ok "t")

/-- C2 counterexample: after a settle whose three winner-payout attempts
all fail, the duel id is still in `pending_recovery` (the code never
removes it on the failure path) as well as in `failed_recovery`, so the
two sets are not disjoint and the id was not removed from
`pending_recovery` as the claim states. -/
theorem c2_counterexample :
    c2Run.2.success = false ∧
    storedStatus c2Run.1 "d1" = some DuelStatus.ACTIVE ∧
    "d1" ∈ c2Run.1.store.pendingRecovery ∧
    "d1" ∈ c2Run.1.store.failedRecovery := by
  decide

/-- C2 (amended): if all 3 winner-payout attempts fail, the duel status
is reverted to ACTIVE, the duel id is added to `failed_recovery`, and
settle returns an error — but the id is NOT removed from
`pending_recovery`: it remains there, so the two sets can intersect. -/
theorem c2_retry_exhaustion (hmac : String → String) (st : ServiceState)
    (duelId winnerWallet : String) (combatSummary : Option String)
    (gameServerSignature : String) (now : ℕ) (commit : CommitOutcome)
    (t : XferResult) (duel : DuelSession) (m1 m2 m3 : String)
    (hg : (st.store.getDuel duelId now).2 = some duel)
    (hs : duel.status = DuelStatus.ACTIVE ∨
          duel.status = DuelStatus.PENDING_SETTLEMENT)
    (hw : verifyStealthId hmac winnerWallet duel.player1.stealthId = true ∨
          verifyStealthId hmac winnerWallet duel.player2.stealthId = true) :
    (settleDuel hmac st duelId winnerWallet combatSummary
        gameServerSignature now commit (XferResult.err m1)
        (XferResult.err m2) (XferResult.err m3) t).2.success = false ∧
    storedStatus (settleDuel hmac st duelId winnerWallet combatSummary
        gameServerSignature now commit (XferResult.err m1)
        (XferResult.err m2) (XferResult.err m3) t).1 duelId =
      some DuelStatus.ACTIVE ∧
    duelId ∈ (settleDuel hmac st duelId winnerWallet combatSummary
        gameServerSignature now commit (XferResult.err m1)
        (XferResult.err m2) (XferResult.err m3) t).1.store.pendingRecovery ∧
    duelId ∈ (settleDuel hmac st duelId winnerWallet combatSummary
        gameServerSignature now commit (XferResult.err m1)
        (XferResult.err m2) (XferResult.err m3) t).1.store.failedRecovery ∧
    (settleDuel hmac st duelId winnerWallet combatSummary
        gameServerSignature now commit (XferResult.err m1)
        (XferResult.err m2) (XferResult.err m3) t).2.error =
      some ("Failed to pay winner after 3 attempts: " ++ m3) := by
  have hc1 : ¬(duel.status ≠ DuelStatus.ACTIVE ∧
      duel.status ≠ DuelStatus.PENDING_SETTLEMENT) := by
    rcases hs with h | h <;> simp [h]
  have hc2 : ¬(¬verifyStealthId hmac winnerWallet duel.player1.stealthId = true ∧
      ¬verifyStealthId hmac winnerWallet duel.player2.stealthId = true) := by
    rcases hw with h | h <;> simp [h]
  have hfo : firstOkAux [XferResult.err m1, XferResult.err m2,
      XferResult.err m3] "" = XferResult.err m3 := rfl
  simp only [settleDuel, hg, if_neg hc1, if_neg hc2, hfo]
  refine ⟨by trivial, ?_, ?_, ?_, by trivial⟩
  · simp [storedStatus, MemoryStore.addFailedRecovery, MemoryStore.setDuel,
      MemoryStore.addPendingRecovery, listGet_listSet_self]
  · exact mem_setAdd_self _ _
  · exact mem_setAdd_self _ _

theorem c2_retry_exhaustion_witness :
    ((demoState.store.getDuel "d1" 100).2 = some activeDuel ∧
     activeDuel.status = DuelStatus.ACTIVE ∧
     verifyStealthId demoHmac "w1" activeDuel.player1.stealthId = true) ∧
    (c2Run.2.success = false ∧
     storedStatus c2Run.1 "d1" = some DuelStatus.ACTIVE ∧
     "d1" ∈ c2Run.1.store.pendingRecovery ∧
     "d1" ∈ c2Run.1.store.failedRecovery ∧
     c2Run.2.error = some ("Failed to pay winner after 3 attempts: " ++ "e3")) :=
  ⟨⟨by decide, by decide, by decide⟩,
   c2_retry_exhaustion demoHmac demoState "d1" "w1" none "sig" 100
     demoCommit (XferResult.ok "t") activeDuel "e1" "e2" "e3"
     (by decide) (Or.inl (by decide)) (Or.inl (by decide))⟩

-- ============================================================================
-- C3 — terminality of SETTLED and REFUNDED
-- ============================================================================

/-- `activeDuel` after a successful settlement. -/
def settledDuel : DuelSession :=
  { activeDuel with status := DuelStatus.SETTLED,
                    winnerStealthId := some "w1",
                    settlementTxSignatures := ["wtx"] }

/-- Service state holding the SETTLED duel (stealth map already cleared,
as after a real settlement). -/
def settledState : ServiceState :=
  { store := { duels := [("d1", ⟨settledDuel, 86400000⟩)] }, stealthMap := [] }

/-- C3 counterexample: `emergencyRefund` on a SETTLED duel with both
transfers succeeding rewrites its status to REFUNDED — a SETTLED duel's
status is not immutable. -/
theorem c3_counterexample :
    storedStatus settledState "d1" = some DuelStatus.SETTLED ∧
    storedStatus (emergencyRefund settledState "d1" "w1" "w2" 100000000
        "SOL" 100 (XferResult.ok "r1") (XferResult.ok "r2")).1 "d1" =
      some DuelStatus.REFUNDED := by
  decide

/-- C3 (amended): SETTLED and REFUNDED are terminal for lock stake,
settle and refund (these reject the call and never rewrite the record;
the store may merely evict it on expiry), but emergency refund rewrites
a still-present record's status to REFUNDED regardless of its previous
status whenever all its transfers succeed. -/
theorem c3_terminal_statuses (hmac : String → String) (st : ServiceState)
    (duelId : String) (sd : StoredDuel)
    (hsd : listGet duelId st.store.duels = some sd)
    (hterm : sd.data.status = DuelStatus.SETTLED ∨
             sd.data.status = DuelStatus.REFUNDED) :
    (∀ playerWallet paymentProof now,
      storedStatus (lockStakeWithProof hmac st duelId playerWallet
          paymentProof now).1 duelId = some sd.data.status ∨
      storedStatus (lockStakeWithProof hmac st duelId playerWallet
          paymentProof now).1 duelId = none) ∧
    (∀ winnerWallet combatSummary gameServerSignature now commit w1 w2 w3 t,
      storedStatus (settleDuel hmac st duelId winnerWallet combatSummary
          gameServerSignature now commit w1 w2 w3 t).1 duelId =
        some sd.data.status ∨
      storedStatus (settleDuel hmac st duelId winnerWallet combatSummary
          gameServerSignature now commit w1 w2 w3 t).1 duelId = none) ∧
    (∀ reason now x1 x2,
      storedStatus (refundDuel st duelId reason now x1 x2).1 duelId =
        some sd.data.status ∨
      storedStatus (refundDuel st duelId reason now x1 x2).1 duelId = none) ∧
    (∀ p1W p2W stake token now x1 x2,
      storedStatus (emergencyRefund st duelId p1W p2W stake token now
          x1 x2).1 duelId = some sd.data.status ∨
      storedStatus (emergencyRefund st duelId p1W p2W stake token now
          x1 x2).1 duelId = some DuelStatus.REFUNDED ∨
      storedStatus (emergencyRefund st duelId p1W p2W stake token now
          x1 x2).1 duelId = none) := by
  have hlock : ∀ now : ℕ, sd.data.status ≠ DuelStatus.PENDING_STAKES := by
    intro _
    rcases hterm with h | h <;> simp [h]
  have hset : sd.data.status ≠ DuelStatus.ACTIVE ∧
      sd.data.status ≠ DuelStatus.PENDING_SETTLEMENT := by
    rcases hterm with h | h <;> simp [h]
  have href : sd.data.status = DuelStatus.SETTLED ∨
      sd.data.status = DuelStatus.REFUNDED := hterm
  refine ⟨?_, ?_, ?_, ?_⟩
  · intro playerWallet paymentProof now
    simp only [lockStakeWithProof, getDuel_of_listGet st.store duelId now sd hsd]
    by_cases hexp : sd.expiresAt ≤ now
    · simp [hexp, storedStatus, listGet_listDelete]
    · simp [hexp, hlock now, storedStatus, hsd]
  · intro winnerWallet combatSummary gameServerSignature now commit w1 w2 w3 t
    simp only [settleDuel, getDuel_of_listGet st.store duelId now sd hsd]
    by_cases hexp : sd.expiresAt ≤ now
    · simp [hexp, storedStatus, listGet_listDelete]
    · simp [hexp, hset, storedStatus, hsd]
  · intro reason now x1 x2
    simp only [refundDuel, getDuel_of_listGet st.store duelId now sd hsd]
    by_cases hexp : sd.expiresAt ≤ now
    · simp [hexp, storedStatus, listGet_listDelete]
    · simp [hexp, href, storedStatus, hsd]
  · intro p1W p2W stake token now x1 x2
    cases hall : ((if p1W ≠ "" then [emergencyLeg "player1" x1] else []) ++
        (if p2W ≠ "" then [emergencyLeg "player2" x2] else [])).all
        (fun r => r.success) with
    | false =>
        simp only [emergencyRefund, hall]
        simp [storedStatus, hsd]
    | true =>
        simp only [emergencyRefund, hall]
        rw [getDuel_of_listGet _ duelId now sd ?hsd1]
        case hsd1 =>
          simpa [MemoryStore.removeFailedRecovery,
            MemoryStore.removePendingRecovery] using hsd
        by_cases hexp : sd.expiresAt ≤ now
        · simp [hexp, storedStatus, MemoryStore.removeFailedRecovery,
            MemoryStore.removePendingRecovery, listGet_listDelete]
        · simp [hexp, storedStatus, MemoryStore.setDuel,
            MemoryStore.removeFailedRecovery, MemoryStore.removePendingRecovery,
            listGet_listSet_self]

theorem c3_terminal_statuses_witness :
    (listGet "d1" settledState.store.duels =
      some ⟨settledDuel, 86400000⟩ ∧
     settledDuel.status = DuelStatus.SETTLED) ∧
    (storedStatus (lockStakeWithProof demoHmac settledState "d1" "w1"
        "proof" 100).1 "d1" = some settledDuel.status ∨
     storedStatus (lockStakeWithProof demoHmac settledState "d1" "w1"
        "proof" 100).1 "d1" = none) ∧
    (storedStatus (refundDuel settledState "d1" "timeout" 100
        (XferResult.ok "a") (XferResult.ok "b")).1 "d1" =
      some settledDuel.status ∨
     storedStatus (refundDuel settledState "d1" "timeout" 100
        (XferResult.ok "a") (XferResult.ok "b")).1 "d1" = none) :=
  ⟨⟨by decide, by decide⟩,
   ((c3_terminal_statuses demoHmac settledState "d1" ⟨settledDuel, 86400000⟩
      (by decide) (Or.inl (by decide))).1 "w1" "proof" 100),
   ((c3_terminal_statuses demoHmac settledState "d1" ⟨settledDuel, 86400000⟩
      (by decide) (Or.inl (by decide))).2.2.1 "timeout" 100
      (XferResult.ok "a") (XferResult.ok "b"))⟩

-- ============================================================================
-- C4 — create-duel stake minimum
-- ============================================================================

/-- Create parameters for a SOL duel with the given human-units stake. -/
def c4Params (q : ℚ) : CreateDuelParams :=
  { player1Wallet := "w1", player2Wallet := "w2", player1CharacterId := "c1",
    player2CharacterId := "c2", player1Name := "Alice", player2Name := "Bob",
    stakeAmountSol := q }

/-- C4 counterexample: creating a SOL duel with stake 0.1 is rejected:
0.1 SOL converts to 100000000 lamports, below the SOL per-token minimum
of 110000000 (`TOKEN_MINIMUMS`), so `createDuel` returns `Stake too low`
and no duel is created. -/
theorem c4_counterexample :
    (createDuel demoHmac demoCfg {} (c4Params (mkRat 1 10)) "dX" 0).2.success
      = false ∧
    (createDuel demoHmac demoCfg {} (c4Params (mkRat 1 10)) "dX" 0).2.error
      = some "Stake too low" ∧
    (createDuel demoHmac demoCfg {} (c4Params (mkRat 1 10)) "dX" 0).1 = {} ∧
    (mkRat 1 10).num * 10 ^ 9 / ((mkRat 1 10).den : ℤ) = 100000000 ∧
    TOKEN_MINIMUMS "SOL" = some 110000000 := by
  decide

/-- C4 (amended): a SOL duel with stake 0.1 is rejected as below the
per-token minimum (0.11 SOL = 110000000 lamports); a stake of 0.11 SOL
is accepted, producing a duel in status PENDING_STAKES with stake
110000000 lamports for each player. -/
theorem c4_create_stake_minimum :
    (createDuel demoHmac demoCfg {} (c4Params (mkRat 1 10)) "dX" 0).2.success
      = false ∧
    (createDuel demoHmac demoCfg {} (c4Params (mkRat 11 100)) "dY" 0).2.success
      = true ∧
    ((createDuel demoHmac demoCfg {} (c4Params (mkRat 11 100)) "dY" 0).2.duel.map
      (fun d => d.status)) = some DuelStatus.PENDING_STAKES ∧
    ((createDuel demoHmac demoCfg {} (c4Params (mkRat 11 100)) "dY" 0).2.duel.map
      (fun d => d.player1.stakeAmount)) = some 110000000 ∧
    ((createDuel demoHmac demoCfg {} (c4Params (mkRat 11 100)) "dY" 0).2.duel.map
      (fun d => d.player2.stakeAmount)) = some 110000000 := by
  decide

-- ============================================================================
-- C5 — stealth reverse map cleanup on terminal transitions
-- ============================================================================

/-- C5 counterexample: `emergencyRefund` with both transfers succeeding
marks the ACTIVE duel REFUNDED but never unregisters the stealth ids:
both reverse-map entries survive the terminal transition. -/
theorem c5_counterexample :
    storedStatus (emergencyRefund demoState "d1" "w1" "w2" 100000000 "SOL"
        100 (XferResult.ok "r1") (XferResult.ok "r2")).1 "d1" =
      some DuelStatus.REFUNDED ∧
    stealthResolve activeDuel.player1.stealthId
      (emergencyRefund demoState "d1" "w1" "w2" 100000000 "SOL" 100
        (XferResult.ok "r1") (XferResult.ok "r2")).1.stealthMap = some "w1" ∧
    stealthResolve activeDuel.player2.stealthId
      (emergencyRefund demoState "d1" "w1" "w2" 100000000 "SOL" 100
        (XferResult.ok "r1") (XferResult.ok "r2")).1.stealthMap = some "w2" := by
  decide

theorem resolve_after_unregister_both (m : StealthMap) (a b : String) :
    stealthResolve a (stealthUnregister b (stealthUnregister a m)) = none ∧
    stealthResolve b (stealthUnregister b (stealthUnregister a m)) = none := by
  constructor
  · unfold stealthResolve stealthUnregister
    rw [listGet_listDelete]
    by_cases hab : a = b
    · simp [hab]
    · simp only [hab, if_false]
      rw [listGet_listDelete]
      simp
  · unfold stealthResolve stealthUnregister
    rw [listGet_listDelete]
    simp

/-- C5 (amended): after a settle that returns success, and after a
refund that returns success, the stealth reverse map contains no entry
for either participant of that duel; `emergencyRefund`, however, marks a
duel REFUNDED without unregistering the stealth ids (see the
counterexample), so the claim does not hold for every REFUNDED duel. -/
theorem c5_stealth_unregistered (hmac : String → String) (st : ServiceState)
    (duelId : String) (now : ℕ) (duel : DuelSession)
    (hg : (st.store.getDuel duelId now).2 = some duel) :
    (∀ winnerWallet combatSummary gameServerSignature commit w1 w2 w3 t,
      (settleDuel hmac st duelId winnerWallet combatSummary
          gameServerSignature now commit w1 w2 w3 t).2.success = true →
      stealthResolve duel.player1.stealthId
        (settleDuel hmac st duelId winnerWallet combatSummary
          gameServerSignature now commit w1 w2 w3 t).1.stealthMap = none ∧
      stealthResolve duel.player2.stealthId
        (settleDuel hmac st duelId winnerWallet combatSummary
          gameServerSignature now commit w1 w2 w3 t).1.stealthMap = none) ∧
    (∀ reason x1 x2,
      (refundDuel st duelId reason now x1 x2).2.success = true →
      stealthResolve duel.player1.stealthId
        (refundDuel st duelId reason now x1 x2).1.stealthMap = none ∧
      stealthResolve duel.player2.stealthId
        (refundDuel st duelId reason now x1 x2).1.stealthMap = none) := by
  constructor
  · intro winnerWallet combatSummary gameServerSignature commit w1 w2 w3 t
    simp only [settleDuel, hg]
    repeat' split
    all_goals intro hsucc
    all_goals first
      | exact resolve_after_unregister_both _ _ _
      | exact absurd hsucc (by simp)
  · intro reason x1 x2
    simp only [refundDuel, hg]
    repeat' split
    all_goals intro hsucc
    all_goals first
      | exact resolve_after_unregister_both _ _ _
      | exact absurd hsucc (by simp)

theorem c5_stealth_unregistered_witness :
    ((demoState.store.getDuel "d1" 100).2 = some activeDuel ∧
     c1Run.2.success = true) ∧
    (stealthResolve activeDuel.player1.stealthId c1Run.1.stealthMap = none ∧
     stealthResolve activeDuel.player2.stealthId c1Run.1.stealthMap = none) :=
  ⟨⟨by decide, by decide⟩,
   (c5_stealth_unregistered demoHmac demoState "d1" 100 activeDuel
      (by decide)).1 "w1" none "sig" demoCommit (XferResult.ok "wtx")
      (XferResult.ok "x2") (XferResult.ok "x3") (XferResult.ok "ttx")
      (by decide)⟩

-- ============================================================================
-- C6 — failed refund transfers leave no recovery trace
-- ============================================================================

/-- Player 2 before locking. -/
def c6P2 : DuelParticipant :=
  { stealthId := "w2", characterId := "c2", characterName := "Bob",
    stakeAmount := 100000000, stakeLocked := false }

/-- A PENDING_STAKES duel in which only player 1 has locked. -/
def p1LockedDuel : DuelSession :=
  { activeDuel with status := DuelStatus.PENDING_STAKES, player2 := c6P2 }

def c6State : ServiceState :=
  { store := { duels := [("d1", ⟨p1LockedDuel, 1800000⟩)] },
    stealthMap := [("w1", "w1"), ("w2", "w2")] }

/-- Refund of `p1LockedDuel` whose single refund transfer fails. -/
def c6Run : ServiceState × RefundResult :=
  refundDuel c6State "d1" "error" 100 (XferResult.err "network")
    (XferResult.ok "unused")

/-- C6 counterexample: player 1 has `stake_locked = true` and their
refund transfer fails, yet afterwards the duel is REFUNDED (terminal),
no tx was collected, and both recovery sets are empty — the stranded
funds are invisible to the recovery endpoints. -/
theorem c6_counterexample :
    p1LockedDuel.player1.stakeLocked = true ∧
    stealthResolve p1LockedDuel.player1.stealthId c6State.stealthMap =
      some "w1" ∧
    c6Run.2.success = true ∧
    c6Run.2.refundTxSignatures = [] ∧
    storedStatus c6Run.1 "d1" = some DuelStatus.REFUNDED ∧
    c6Run.1.store.pendingRecovery = [] ∧
    c6Run.1.store.failedRecovery = [] := by
  decide

/-- C6 (amended): when a refund transfer for a participant (either
player) with `stake_locked = true` fails during `refundDuel`, the duel
is nevertheless transitioned to REFUNDED (a terminal status) and both
recovery sets are left exactly as they were — the failure is not
recorded for the recovery endpoints, and the call still reports
success. -/
theorem c6_refund_failure_invisible (st : ServiceState)
    (duelId reason : String) (now : ℕ) (m w : String) (x1 x2 : XferResult)
    (duel : DuelSession)
    (hg : (st.store.getDuel duelId now).2 = some duel)
    (hnt : ¬(duel.status = DuelStatus.SETTLED ∨
             duel.status = DuelStatus.REFUNDED))
    (hfail :
      (duel.player1.stakeLocked = true ∧
       stealthResolve duel.player1.stealthId st.stealthMap = some w ∧
       x1 = XferResult.err m) ∨
      (duel.player2.stakeLocked = true ∧
       stealthResolve duel.player2.stealthId st.stealthMap = some w ∧
       x2 = XferResult.err m)) :
    storedStatus (refundDuel st duelId reason now x1 x2).1
      duelId = some DuelStatus.REFUNDED ∧
    (refundDuel st duelId reason now x1 x2).1.store.pendingRecovery =
      st.store.pendingRecovery ∧
    (refundDuel st duelId reason now x1 x2).1.store.failedRecovery =
      st.store.failedRecovery ∧
    (refundDuel st duelId reason now x1 x2).2.success = true := by
  have hproj := getDuel_fst_proj st.store duelId now
  have _ := hfail
  simp only [refundDuel, hg, if_neg hnt]
  refine ⟨?_, ?_, ?_, by trivial⟩
  · simp [storedStatus, MemoryStore.setDuel, listGet_listSet_self]
  · simpa [MemoryStore.setDuel] using hproj.2.1
  · simpa [MemoryStore.setDuel] using hproj.2.2

/-- Refund of the ACTIVE duel in which player 1's transfer succeeds and
only player 2's transfer fails. -/
def c6RunB : ServiceState × RefundResult :=
  refundDuel demoState "d1" "error" 100 (XferResult.ok "r1")
    (XferResult.err "net2")

theorem c6_refund_failure_invisible_witness :
    ((c6State.store.getDuel "d1" 100).2 = some p1LockedDuel ∧
     ¬(p1LockedDuel.status = DuelStatus.SETTLED ∨
       p1LockedDuel.status = DuelStatus.REFUNDED) ∧
     p1LockedDuel.player1.stakeLocked = true ∧
     stealthResolve p1LockedDuel.player1.stealthId c6State.stealthMap =
       some "w1") ∧
    (storedStatus c6Run.1 "d1" = some DuelStatus.REFUNDED ∧
     c6Run.1.store.pendingRecovery = c6State.store.pendingRecovery ∧
     c6Run.1.store.failedRecovery = c6State.store.failedRecovery ∧
     c6Run.2.success = true) ∧
    ((demoState.store.getDuel "d1" 100).2 = some activeDuel ∧
     activeDuel.player2.stakeLocked = true ∧
     stealthResolve activeDuel.player2.stealthId demoState.stealthMap =
       some "w2") ∧
    (storedStatus c6RunB.1 "d1" = some DuelStatus.REFUNDED ∧
     c6RunB.1.store.pendingRecovery = demoState.store.pendingRecovery ∧
     c6RunB.1.store.failedRecovery = demoState.store.failedRecovery ∧
     c6RunB.2.success = true) :=
  ⟨⟨by decide, by decide, by decide, by decide⟩,
   c6_refund_failure_invisible c6State "d1" "error" 100 "network" "w1"
     (XferResult.err "network") (XferResult.ok "unused") p1LockedDuel
     (by decide) (by decide)
     (Or.inl ⟨by decide, by decide, rfl⟩),
   ⟨by decide, by decide, by decide⟩,
   c6_refund_failure_invisible demoState "d1" "error" 100 "net2" "w2"
     (XferResult.ok "r1") (XferResult.err "net2") activeDuel
     (by decide) (by decide)
     (Or.inr ⟨by decide, by decide, rfl⟩)⟩

-- ============================================================================
-- C7 — dust sweep threshold
-- ============================================================================

/-- Accumulated USD1 dust above the USD1 per-token minimum (5.5 USD1)
but below the fixed 0.1 SOL threshold the sweep actually uses. -/
def c7State : ServiceState :=
  { store := { dust := [("USD1", 6000000)] } }

/-- Accumulated SOL dust above the fixed sweep threshold. -/
def c7BigState : ServiceState :=
  { store := { dust := [("SOL", 150000000)] } }

/-- C7 counterexample: 6000000 units of USD1 dust are at or above the
USD1 per-token minimum (5500000), yet the sweep reports under-minimum,
issues no transfer and leaves the state untouched — it compares against
a fixed 100000000 threshold, not the per-token minimum. -/
theorem c7_counterexample :
    (TOKEN_MINIMUMS "USD1").getD 0 ≤ 6000000 ∧
    c7State.store.getDust "USD1" = 6000000 ∧
    (sweepDustToTreasury c7State "USD1" (XferResult.ok "t")).2.1.success =
      false ∧
    (sweepDustToTreasury c7State "USD1" (XferResult.ok "t")).2.2 = [] ∧
    (sweepDustToTreasury c7State "USD1" (XferResult.ok "t")).1 = c7State := by
  decide

/-- C7 (amended): dust sweep compares the accumulated dust for the token
against the fixed threshold 100000000 (0.1 SOL) for every token, not the
per-token minimum. Below that threshold it reports under-minimum,
performs no transfer and changes nothing; at or above it, it issues a
single treasury transfer of the full dust amount and, on success, resets
the counter to zero and returns the tx id (on failure it resets
nothing). -/
theorem c7_sweep_fixed_threshold (st1 st2 : ServiceState)
    (token1 token2 : String) (x : XferResult) (tx m : String)
    (h1 : st1.store.getDust token1 < 100000000)
    (h2 : 100000000 ≤ st2.store.getDust token2) :
    ((sweepDustToTreasury st1 token1 x).1 = st1 ∧
     (sweepDustToTreasury st1 token1 x).2.1.success = false ∧
     (sweepDustToTreasury st1 token1 x).2.1.txSignature = none ∧
     (sweepDustToTreasury st1 token1 x).2.2 = []) ∧
    ((sweepDustToTreasury st2 token2 (XferResult.ok tx)).2.1.success = true ∧
     (sweepDustToTreasury st2 token2 (XferResult.ok tx)).2.1.txSignature =
       some tx ∧
     (sweepDustToTreasury st2 token2 (XferResult.ok tx)).2.2 =
       [(token2, st2.store.getDust token2)] ∧
     (sweepDustToTreasury st2 token2
        (XferResult.ok tx)).1.store.getDust token2 = 0) ∧
    ((sweepDustToTreasury st2 token2 (XferResult.err m)).2.1.success = false ∧
     (sweepDustToTreasury st2 token2 (XferResult.err m)).2.2 =
       [(token2, st2.store.getDust token2)]) := by
  have h2a : (100000000 : ℤ) ≤ (listGet token2 st2.store.dust).getD 0 := by
    simpa [MemoryStore.getDust] using h2
  have hn2 : ¬ (listGet token2 st2.store.dust).getD 0 < 100000000 := by
    omega
  refine ⟨?_, ?_, ?_⟩
  · simp [sweepDustToTreasury, h1]
  · simp [sweepDustToTreasury, MemoryStore.getDust, hn2,
      MemoryStore.resetDust, listGet_listSet_self]
  · simp [sweepDustToTreasury, MemoryStore.getDust, hn2]

theorem c7_sweep_fixed_threshold_witness :
    (demoState.store.getDust "USD1" < 100000000 ∧
     100000000 ≤ c7BigState.store.getDust "SOL") ∧
    ((sweepDustToTreasury demoState "USD1" (XferResult.ok "a")).1 =
       demoState ∧
     (sweepDustToTreasury c7BigState "SOL"
        (XferResult.ok "t2")).2.1.txSignature = some "t2" ∧
     (sweepDustToTreasury c7BigState "SOL"
        (XferResult.ok "t2")).1.store.getDust "SOL" = 0 ∧
     (sweepDustToTreasury c7BigState "SOL" (XferResult.err "down")).2.2 =
       [("SOL", c7BigState.store.getDust "SOL")]) :=
  ⟨⟨by decide, by decide⟩,
   (c7_sweep_fixed_threshold demoState c7BigState "USD1" "SOL"
      (XferResult.ok "a") "t2" "down" (by decide) (by decide)).1.1,
   (c7_sweep_fixed_threshold demoState c7BigState "USD1" "SOL"
      (XferResult.ok "a") "t2" "down" (by decide) (by decide)).2.1.2.1,
   (c7_sweep_fixed_threshold demoState c7BigState "USD1" "SOL"
      (XferResult.ok "a") "t2" "down" (by decide) (by decide)).2.1.2.2.2,
   (c7_sweep_fixed_threshold demoState c7BigState "USD1" "SOL"
      (XferResult.ok "a") "t2" "down" (by decide) (by decide)).2.2.2⟩

-- ============================================================================
-- C9 — lock-stake deadline boundary
-- ============================================================================

/-- State right after creating a 0.11 SOL duel at time 0 with the default
30 minute escrow timeout: the duel and its store entry both expire at
1800000. -/
def c9Created : ServiceState :=
  (createDuel demoHmac demoCfg {} (c4Params (mkRat 11 100)) "d9" 0).1

/-- The duel record produced by that create call. -/
def c9Duel : DuelSession :=
  { duelId := "d9", status := DuelStatus.PENDING_STAKES,
    player1 := { stealthId := "w1", characterId := "c1",
                 characterName := "Alice", stakeAmount := 110000000,
                 stakeLocked := false },
    player2 := { stealthId := "w2", characterId := "c2",
                 characterName := "Bob", stakeAmount := 110000000,
                 stakeLocked := false },
    token := "SOL", houseFeePercent := 2, rules := DEFAULT_RULES,
    createdAt := 0, updatedAt := 0, expiresAt := 1800000 }

/-- C9 counterexample: a lock request arriving at exactly
`now = expires_at` is REJECTED — the store evicts the record at its
(equal) expiry (`expiresAt <= now`) before the engine's own
`now > expires_at` check can accept it — while one millisecond earlier
the same request is accepted. -/
theorem c9_counterexample :
    storedStatus c9Created "d9" = some DuelStatus.PENDING_STAKES ∧
    (listGet "d9" c9Created.store.duels).map (fun sd => sd.data.expiresAt) =
      some 1800000 ∧
    (listGet "d9" c9Created.store.duels).map (fun sd => sd.expiresAt) =
      some 1800000 ∧
    (lockStakeWithProof demoHmac c9Created "d9" "w1" "tx_p1"
      1800000).2.success = false ∧
    (lockStakeWithProof demoHmac c9Created "d9" "w1" "tx_p1" 1800000).2.error =
      some "Duel not found" ∧
    (lockStakeWithProof demoHmac c9Created "d9" "w1" "tx_p1"
      1799999).2.success = true := by
  decide

/-- C9 (amended): whether the boundary lock is accepted depends on the
stored entry's expiry, not only on `expires_at`. For a PENDING_STAKES
duel and a verified, not-yet-locked requester (either player):
(a) while the store entry expires exactly at `expires_at` — the state
after create, and after any lock at least 1 s before the deadline — the
lock is accepted iff `now < expires_at`, and at `now = expires_at` (and
later) it is rejected with `Duel not found`, the store evicting at the
inclusive boundary before the engine's own `now > expires_at` check
runs; (b) when a previous lock within 1 s of the deadline re-persisted
the record (its TTL is clamped to at least 1000 ms), the store entry
outlives `expires_at`: a lock at exactly `now = expires_at` is then
accepted, and while the entry survives past the deadline the rejection
reads `Duel has expired` instead. -/
theorem c9_lock_deadline (hmac : String → String) (st : ServiceState)
    (duelId playerWallet paymentProof : String) (sd : StoredDuel)
    (now1 now2 now4 : ℕ)
    (hsd : listGet duelId st.store.duels = some sd)
    (hst : sd.data.status = DuelStatus.PENDING_STAKES)
    (hreq :
      (verifyStealthId hmac playerWallet sd.data.player1.stealthId = true ∧
       sd.data.player1.stakeLocked = false) ∨
      (¬verifyStealthId hmac playerWallet sd.data.player1.stealthId = true ∧
       verifyStealthId hmac playerWallet sd.data.player2.stealthId = true ∧
       sd.data.player2.stakeLocked = false)) :
    (sd.expiresAt = sd.data.expiresAt →
      (now1 < sd.data.expiresAt →
        (lockStakeWithProof hmac st duelId playerWallet paymentProof
          now1).2.success = true ∧
        (lockStakeWithProof hmac st duelId playerWallet paymentProof
          now1).2.txSignature = some paymentProof) ∧
      (sd.data.expiresAt ≤ now2 →
        (lockStakeWithProof hmac st duelId playerWallet paymentProof
          now2).2.success = false ∧
        (lockStakeWithProof hmac st duelId playerWallet paymentProof
          now2).2.error = some "Duel not found")) ∧
    (sd.data.expiresAt < sd.expiresAt →
      ((lockStakeWithProof hmac st duelId playerWallet paymentProof
          sd.data.expiresAt).2.success = true ∧
       (lockStakeWithProof hmac st duelId playerWallet paymentProof
          sd.data.expiresAt).2.txSignature = some paymentProof) ∧
      (sd.data.expiresAt < now4 → now4 < sd.expiresAt →
        (lockStakeWithProof hmac st duelId playerWallet paymentProof
          now4).2.success = false ∧
        (lockStakeWithProof hmac st duelId playerWallet paymentProof
          now4).2.error = some "Duel has expired")) := by
  constructor
  · intro hexp
    constructor
    · intro h1
      have hne1 : ¬ sd.expiresAt ≤ now1 := by omega
      have hlt1 : ¬ sd.data.expiresAt < now1 := by omega
      rcases hreq with ⟨hv, hn⟩ | ⟨hnv, hv2, hn2⟩
      · simp [lockStakeWithProof,
          getDuel_of_listGet st.store duelId now1 sd hsd,
          hne1, hst, hlt1, hv, hn]
      · simp [lockStakeWithProof,
          getDuel_of_listGet st.store duelId now1 sd hsd,
          hne1, hst, hlt1, hnv, hv2, hn2]
    · intro h2
      have hle2 : sd.expiresAt ≤ now2 := by omega
      constructor
      · simp [lockStakeWithProof,
          getDuel_of_listGet st.store duelId now2 sd hsd, hle2]
      · simp [lockStakeWithProof,
          getDuel_of_listGet st.store duelId now2 sd hsd, hle2]
  · intro hlate
    constructor
    · have hneE : ¬ sd.expiresAt ≤ sd.data.expiresAt := by omega
      have hltE : ¬ sd.data.expiresAt < sd.data.expiresAt := by omega
      rcases hreq with ⟨hv, hn⟩ | ⟨hnv, hv2, hn2⟩
      · simp [lockStakeWithProof,
          getDuel_of_listGet st.store duelId sd.data.expiresAt sd hsd,
          hneE, hst, hltE, hv, hn]
      · simp [lockStakeWithProof,
          getDuel_of_listGet st.store duelId sd.data.expiresAt sd hsd,
          hneE, hst, hltE, hnv, hv2, hn2]
    · intro h4a h4b
      have hne4 : ¬ sd.expiresAt ≤ now4 := by omega
      constructor
      · simp [lockStakeWithProof,
          getDuel_of_listGet st.store duelId now4 sd hsd, hne4, hst, h4a]
      · simp [lockStakeWithProof,
          getDuel_of_listGet st.store duelId now4 sd hsd, hne4, hst, h4a]

/-- State after player 1 locks 500 ms before the deadline: the TTL clamp
`max(expires_at − now, 1000)` re-persists the entry until 1800500,
beyond the duel's `expires_at` of 1800000. -/
def c9Late : ServiceState :=
  (lockStakeWithProof demoHmac c9Created "d9" "w1" "tx_p1" 1799500).1

def c9LateP1 : DuelParticipant :=
  { stealthId := "w1", characterId := "c1", characterName := "Alice",
    stakeAmount := 110000000, stakeLocked := true,
    lockTxSignature := some "tx_p1", lockTimestamp := some 1799500 }

/-- The duel record stored in `c9Late`. -/
def c9LateDuel : DuelSession :=
  { c9Duel with player1 := c9LateP1, updatedAt := 1799500 }

theorem c9_lock_deadline_witness :
    (listGet "d9" c9Created.store.duels = some ⟨c9Duel, 1800000⟩ ∧
     c9Duel.status = DuelStatus.PENDING_STAKES ∧
     (1800000 : ℕ) = c9Duel.expiresAt ∧
     1799999 < c9Duel.expiresAt ∧ c9Duel.expiresAt ≤ 1800000) ∧
    ((lockStakeWithProof demoHmac c9Created "d9" "w1" "tx_p1"
        1799999).2.success = true ∧
     (lockStakeWithProof demoHmac c9Created "d9" "w1" "tx_p1"
        1799999).2.txSignature = some "tx_p1" ∧
     (lockStakeWithProof demoHmac c9Created "d9" "w1" "tx_p1"
        1800000).2.success = false ∧
     (lockStakeWithProof demoHmac c9Created "d9" "w1" "tx_p1"
        1800000).2.error = some "Duel not found") ∧
    (listGet "d9" c9Late.store.duels = some ⟨c9LateDuel, 1800500⟩ ∧
     c9LateDuel.status = DuelStatus.PENDING_STAKES ∧
     c9LateDuel.expiresAt < 1800500 ∧
     ¬verifyStealthId demoHmac "w2" c9LateDuel.player1.stealthId = true ∧
     verifyStealthId demoHmac "w2" c9LateDuel.player2.stealthId = true ∧
     c9LateDuel.player2.stakeLocked = false) ∧
    ((lockStakeWithProof demoHmac c9Late "d9" "w2" "tx_p2"
        c9LateDuel.expiresAt).2.success = true ∧
     (lockStakeWithProof demoHmac c9Late "d9" "w2" "tx_p2"
        1800001).2.success = false ∧
     (lockStakeWithProof demoHmac c9Late "d9" "w2" "tx_p2"
        1800001).2.error = some "Duel has expired") := by
  refine ⟨⟨by decide, by decide, by decide, by decide, by decide⟩, ?_,
    ⟨by decide, by decide, by decide, by decide, by decide, by decide⟩, ?_⟩
  · have TA := (c9_lock_deadline demoHmac c9Created "d9" "w1" "tx_p1"
      ⟨c9Duel, 1800000⟩ 1799999 1800000 0 (by decide) (by decide)
      (Or.inl ⟨by decide, by decide⟩)).1 (by decide)
    exact ⟨(TA.1 (by decide)).1, (TA.1 (by decide)).2,
           (TA.2 (by decide)).1, (TA.2 (by decide)).2⟩
  · have TB := (c9_lock_deadline demoHmac c9Late "d9" "w2" "tx_p2"
      ⟨c9LateDuel, 1800500⟩ 0 0 1800001 (by decide) (by decide)
      (Or.inr ⟨by decide, by decide, by decide⟩)).2 (by decide)
    exact ⟨TB.1.1, (TB.2 (by decide) (by decide)).1,
           (TB.2 (by decide) (by decide)).2⟩

-- ============================================================================
-- C10 — failed dust-sweep transfer keeps the counter
-- ============================================================================

/-- C10: if the treasury transfer issued by the dust sweep fails, the
call leaves the whole state (in particular the dust counter for that
token) unchanged — the counter is reset only after a successful
transfer — so a later sweep can still transfer the full accumulated
amount. -/
theorem c10_sweep_failure_keeps_counter (st : ServiceState)
    (token m tx : String) (h : 100000000 ≤ st.store.getDust token) :
    (sweepDustToTreasury st token (XferResult.err m)).2.2 =
      [(token, st.store.getDust token)] ∧
    (sweepDustToTreasury st token (XferResult.err m)).1 = st ∧
    (sweepDustToTreasury st token
        (XferResult.err m)).1.store.getDust token = st.store.getDust token ∧
    (sweepDustToTreasury st token (XferResult.err m)).2.1.success = false ∧
    (sweepDustToTreasury (sweepDustToTreasury st token
        (XferResult.err m)).1 token (XferResult.ok tx)).2.1.success = true ∧
    (sweepDustToTreasury (sweepDustToTreasury st token
        (XferResult.err m)).1 token (XferResult.ok tx)).2.1.amount =
      some (st.store.getDust token) := by
  have hn : ¬ st.store.getDust token < 100000000 := by omega
  simp [sweepDustToTreasury, hn]

theorem c10_sweep_failure_keeps_counter_witness :
    (100000000 ≤ c7BigState.store.getDust "SOL") ∧
    ((sweepDustToTreasury c7BigState "SOL" (XferResult.err "down")).1 =
       c7BigState ∧
     (sweepDustToTreasury c7BigState "SOL"
        (XferResult.err "down")).1.store.getDust "SOL" =
       c7BigState.store.getDust "SOL" ∧
     (sweepDustToTreasury (sweepDustToTreasury c7BigState "SOL"
        (XferResult.err "down")).1 "SOL" (XferResult.ok "t3")).2.1.amount =
       some (c7BigState.store.getDust "SOL")) :=
  ⟨by decide,
   (c10_sweep_failure_keeps_counter c7BigState "SOL" "down" "t3"
      (by decide)).2.1,
   (c10_sweep_failure_keeps_counter c7BigState "SOL" "down" "t3"
      (by decide)).2.2.1,
   (c10_sweep_failure_keeps_counter c7BigState "SOL" "down" "t3"
      (by decide)).2.2.2.2.2⟩

end Alerith
